import Mathlib

/-! Verification of the Deadline Cloud for Houdini submitter's
render-graph-to-job-plan compiler, shallowly embedded from
`deadline_cloud_for_houdini/submitter.py`.

String primitives (split, strip, replace, int conversion, prefix tests) are
modelled by structurally recursive functions over `List Char` mirroring the
Python `str` methods used by the source, so that every definition evaluates
inside the kernel. -/

/-! ## Python string primitives -/

/-- Python str.split(sep) for a one-character separator: splits at every
occurrence of the separator, keeping empty fields. -/
def pysplitAux (sep : Char) : List Char → List Char → List (List Char)
  | [], acc => [acc.reverse]
  | c :: rest, acc =>
    if c = sep then acc.reverse :: pysplitAux sep rest []
    else pysplitAux sep rest (c :: acc)

/-- Python str.split(sep) for a one-character separator, on strings. -/
def pysplit (s : String) (sep : Char) : List String :=
  (pysplitAux sep s.data []).map String.mk

/-- Python str.replace(pat, rep), fuelled so the recursion is structural;
the fuel is always instantiated with the length of the subject string, which
suffices because each step consumes at least one character. -/
def pyreplaceAux (pat rep : List Char) : Nat → List Char → List Char
  | 0, cs => cs
  | _ + 1, [] => []
  | fuel + 1, c :: rest =>
    if pat.isPrefixOf (c :: rest) then
      rep ++ pyreplaceAux pat rep fuel (rest.drop (pat.length - 1))
    else
      c :: pyreplaceAux pat rep fuel rest

/-- Python str.replace(pat, rep) for a non-empty pattern: replaces all
non-overlapping occurrences, scanning left to right. -/
def pyreplace (s pat rep : String) : String :=
  String.mk (pyreplaceAux pat.data rep.data s.data.length s.data)

/-- Python str.strip() with no argument: drop leading and trailing whitespace. -/
def pystrip (s : String) : String :=
  String.mk (((s.data.dropWhile Char.isWhitespace).reverse.dropWhile
    Char.isWhitespace).reverse)

/-- Value of a non-empty digit string, `none` on any non-digit character. -/
def digitsValAux : List Char → Nat → Option Nat
  | [], acc => some acc
  | c :: rest, acc =>
    if c.isDigit then digitsValAux rest (acc * 10 + (c.toNat - 48)) else none

/-- Python int(str): optional surrounding whitespace, optional sign, then a
non-empty run of decimal digits; anything else raises (here: `none`). -/
def pyint (s : String) : Option Int :=
  let cs := ((s.data.dropWhile Char.isWhitespace).reverse.dropWhile
    Char.isWhitespace).reverse
  match cs with
  | [] => none
  | '-' :: rest =>
    match rest with
    | [] => none
    | _ => (digitsValAux rest 0).map (fun n => -(n : Int))
  | '+' :: rest =>
    match rest with
    | [] => none
    | _ => (digitsValAux rest 0).map (fun n => (n : Int))
  | _ => (digitsValAux cs 0).map (fun n => (n : Int))

/-- Python str.startswith(p). -/
def pystartswith (s p : String) : Bool := p.data.isPrefixOf s.data

/-- Python str.startswith on a tuple of prefixes. -/
def startsWithAny (s : String) (ps : List String) : Bool :=
  ps.any (fun p => pystartswith s p)

/-- os.path.dirname for POSIX paths: the part before the final slash, with
trailing slashes stripped unless the head is made of slashes only. -/
def dirname (p : String) : String :=
  let cs := p.data
  match cs.reverse.findIdx? (fun c => c = '/') with
  | none => ""
  | some k =>
    let head := cs.take (cs.length - k)
    if head.all (fun c => c = '/') then String.mk head
    else String.mk ((head.reverse.dropWhile (fun c => c = '/')).reverse)

/-! ## Data model -/

/-- Module-level constant IGNORE_REF_VALUES: virtual-scheme prefixes whose
references are never treated as file assets. -/
def IGNORE_REF_VALUES : List String := ["opdef:", "oplib:", "temp:"]

/-- Module-level constant IGNORE_REF_PARMS: parameter names whose references
are never treated as assets. -/
def IGNORE_REF_PARMS : List String := ["taskgraphfile", "pdg_workingdir", "soho_program"]

/-- One render step (the step_dict built in _get_rop_steps). -/
structure RenderStep where
  id : String
  name : String
  deps : List String
  rop : String
  start : Int
  stop : Int
  step : Int
deriving DecidableEq, Inhabited

/-- Owning parameter of a hou file reference: the path of its node and the
parameter name (what submitter.py reads via n[0].node() and n[0].name()). -/
structure FileRefParm where
  nodePath : String
  name : String
deriving DecidableEq, Inhabited

/-- Parameter definition document ({name, type, objectType?, dataFlow?,
default?}), also used for the farm-queue-supplied definitions. -/
structure ParamDef where
  name : String
  type : String
  objectType : Option String := none
  dataFlow : Option String := none
  default : Option String := none
deriving DecidableEq, Inhabited

/-- Modelled from the spec: parsed contents of the bundled
adaptor_override_environment.yaml, a repository file that is not under src/.
Per the spec it holds a parameterDefinitions list (whose first entry's
default receives the wheels path) and one environment block, which we keep
opaque. -/
structure OverrideEnvironment where
  parameterDefinitions : List ParamDef
  environment : String
deriving DecidableEq, Inhabited

/-- Host application (Houdini) and filesystem facts visible to submitter.py:
each field models one of the external calls the source makes. -/
structure Host where
  /-- hou.hipFile.path() -/
  hipFile : String
  /-- hou.applicationVersionString() -/
  houdiniVersion : String
  /-- hou.hscript cmd: (stdout, stderr) keyed by the full command string -/
  hscript : String → String × String
  /-- hou.node(path).type().name() -/
  typeName : String → String
  /-- hou.node(path).type().nameWithCategory() -/
  typeNameWithCategory : String → String
  /-- hou.node(path).parm(parmName).eval() for string-valued parameters -/
  parmEval : String → String → String
  /-- hou.fileReferences(): (owning parameter or none, value) pairs -/
  fileReferences : List (Option FileRefParm × String)
  /-- os.path.isdir -/
  isdir : String → Bool
  /-- os.path.exists -/
  pathExists : String → Bool
  /-- deadline.client.job_bundle.adaptors.parse_frame_range (external library) -/
  parseFrameRange : String → List Int
  /-- parsed adaptor_override_environment.yaml bundled next to the module -/
  overrideEnv : OverrideEnvironment

/-- Heterogeneous parameter value (int-valued or string-valued). -/
inductive PValue
  | intVal : Int → PValue
  | strVal : String → PValue
deriving DecidableEq, Inhabited

/-- One {name, value} entry of the parameter values document. -/
structure ParameterValue where
  name : String
  value : PValue
deriving DecidableEq, Inhabited

/-- Submitting rop node's parameters and user data as read by submitter.py
(int toggles are modelled by their Python truthiness as Bool; the
queue_parameter_definitions user data is modelled after json.loads). -/
structure RopNode where
  path : String
  name : String
  description : String
  separate_steps : Bool
  include_adaptor_wheels : Bool
  adaptor_wheels : String
  queue_parameter_definitions : Option (List ParamDef)
  priority : Int
  initial_status : String
  failed_tasks_limit : Int
  task_retry_limit : Int
  /-- Modelled from the spec: the farm-queue parameter values contributed by
  get_queue_parameter_values_as_openjd of the repository's queue_parameters
  module, which is not under src/; per the spec they form a flat list of
  name/value pairs stored with the node's queue metadata. -/
  queue_parameter_values : List ParameterValue
deriving Inhabited

/-! ## Step-Graph Extractor (_get_rop_steps) -/

/-- Frame-range token parse, submitter.py lines 103-106: strip the "( " and
" )" markers, split on spaces, convert every token with int(). -/
def parseFrangeInts (frange_part : String) : Option (List Int) :=
  let frange := pyreplace (pyreplace frange_part "( " "") " )" ""
  let range_parts := pysplit frange ' '
  range_parts.mapM pyint

/-- Single-frame expansion, lines 107-110: exactly one token f becomes
[f, f, 1]; any other shape is left as parsed. -/
def expandSingleFrame : List Int → List Int
  | [frame] => [frame, frame, 1]
  | l => l

/-- Frame triple a step receives from its frame-range expression: the token
parse of lines 103-106, the single-frame expansion of lines 107-110, then
the range_ints[0], [1], [2] indexing used to populate the step_dict at
lines 131-133; none models the exception raised when fewer than three
values remain. -/
def frangeTriple (frange_part : String) : Option (Int × Int × Int) :=
  match parseFrangeInts frange_part with
  | none => none
  | some range_ints0 =>
    match expandSingleFrame range_ints0 with
    | a :: b :: c :: _ => some (a, b, c)
    | _ => none

/-- Parse one non-blank line of hscript render output (the loop body of
_get_rop_steps). Outer none models a raised Python exception (missing tab
separator, non-integer frame token, or too few tokens for the [0],[1],[2]
indexing); some none models the continue that skips deadline and
deadline_cloud rops. -/
def parseRopLine (typeName : String → String) (n : String) : Option (Option RenderStep) :=
  let parts := pysplit n '\t'
  match parts[0]?, parts[1]? with
  | some rop_str, some frange_part =>
    (match parseFrangeInts frange_part with
     | none => none
     | some range_ints0 =>
       let range_ints := expandSingleFrame range_ints0
       let rop_parts := pysplit rop_str ' '
       match rop_parts[0]?,
             (if rop_parts.length ≥ 2 then rop_parts[rop_parts.length - 2]? else none) with
       | some _id, some path =>
         let deps := ((rop_parts.drop 1).take (rop_parts.length - 3)).filter
           (fun d => (d != "[") && (d != "]"))
         if typeName path = "deadline" ∨ typeName path = "deadline_cloud" then
           some none
         else
           (match range_ints[0]?, range_ints[1]?, range_ints[2]? with
            | some start, some stop, some step =>
              some (some { id := _id, name := path ++ "-" ++ _id, deps := deps,
                           rop := path, start := start, stop := stop, step := step })
            | _, _, _ => none)
       | _, _ => none)
  | _, _ => none

/-- Loop of _get_rop_steps over the output lines: blank lines are skipped,
each remaining line contributes its parsed step unless the line was skipped,
and any line-level exception aborts the whole call. -/
def parseLines (typeName : String → String) : List String → Option (List RenderStep)
  | [] => some []
  | n :: rest =>
    if (pystrip n).isEmpty then parseLines typeName rest
    else
      match parseRopLine typeName n with
      | none => none
      | some none => parseLines typeName rest
      | some (some st) => (parseLines typeName rest).map (fun ss => st :: ss)

/-- _get_rop_steps: run hscript render -p -c -F on the rop's path, fail on a
non-empty error stream, otherwise parse every line of the output. -/
def _get_rop_steps (h : Host) (ropPath : String) : Option (List RenderStep) :=
  let cmd := "render -p -c -F " ++ ropPath
  let res := h.hscript cmd
  if res.2 ≠ "" then none
  else parseLines h.typeName (pysplit res.1 '\n')

/-! ## Asset Reference Collector (_get_scene_asset_references) -/

/-- Three path sets of an AssetReferences record; Python sets are modelled as
duplicate-free lists in insertion order. -/
structure AssetReferences where
  input_filenames : List String := []
  input_directories : List String := []
  output_directories : List String := []
deriving DecidableEq, Inhabited

/-- Python set.add: insert unless already present. -/
def setAdd (s : List String) (x : String) : List String :=
  if x ∈ s then s else s ++ [x]

/-- Module-level table rop_dir_map from operator type-with-category to its
output-path parameter name. -/
def rop_dir_map : List (String × String) :=
  [("Driver/ifd", "vm_picture"),
   ("Driver/karma", "picture"),
   ("Driver/geometry", "sopoutput"),
   ("Driver/alembic", "filename"),
   ("Sop/filecache", "file"),
   ("Sop/rop_geometry", "sopoutput"),
   ("Sop/rop_alembic", "filename")]

/-- Filter of one hou.fileReferences() entry (the loop body over
hou.fileReferences() in _get_scene_asset_references): returns the updated
input_filenames accumulator. -/
def addFileRef (h : Host) (ropPath : String) (acc : List String)
    (n : Option FileRefParm × String) : List String :=
  match n.1 with
  | some p =>
    if p.nodePath = ropPath then acc
    else if startsWithAny n.2 IGNORE_REF_VALUES then acc
    else if p.name ∈ IGNORE_REF_PARMS then acc
    else if h.isdir n.2 then acc
    else setAdd acc n.2
  | none =>
    if h.isdir n.2 then acc
    else setAdd acc n.2

/-- Conditions under which addFileRef actually inserts its reference: not a
directory, and when an owning parameter exists it is neither the submitting
node's, nor a denylisted parameter, nor a virtual-scheme value. -/
def okRef (h : Host) (ropPath : String) (pr : Option FileRefParm × String) : Prop :=
  h.isdir pr.2 = false ∧
  (pr.1 = none ∨
    ∃ p, pr.1 = some p ∧ p.nodePath ≠ ropPath ∧
      startsWithAny pr.2 IGNORE_REF_VALUES = false ∧ p.name ∉ IGNORE_REF_PARMS)

/-- Loop over the extracted steps collecting output directories via
rop_dir_map (the second loop of _get_scene_asset_references). -/
def addOutputDir (h : Host) (acc : List String) (n : RenderStep) : List String :=
  match rop_dir_map.lookup (h.typeNameWithCategory n.rop) with
  | some out_parm =>
    let path := h.parmEval n.rop out_parm
    if path ≠ "" then setAdd acc (dirname path) else acc
  | none => acc

/-- _get_scene_asset_references: hip file plus filtered scene file references
as input filenames, per-type output directories of the extracted steps, and
an untouched (hence empty) input_directories set. none models the exception
propagated out of _get_rop_steps. -/
def _get_scene_asset_references (h : Host) (rop_node : RopNode) : Option AssetReferences :=
  let input_filenames := setAdd [] h.hipFile
  let input_filenames := h.fileReferences.foldl (addFileRef h rop_node.path) input_filenames
  match _get_rop_steps h rop_node.path with
  | none => none
  | some rop_steps =>
    some { input_filenames := input_filenames,
           input_directories := [],
           output_directories := rop_steps.foldl (addOutputDir h) [] }

/-! ## Job Template Compiler (_get_job_template) -/

/-- Embedded file document ({name, filename, type, data}). -/
structure EmbeddedFile where
  name : String
  filename : String
  type : String
  data : String
deriving DecidableEq, Inhabited

/-- Cancellation block of an action. -/
structure CancelSpec where
  mode : String
deriving DecidableEq, Inhabited

/-- One action document ({command, args, cancelation}). -/
structure ActionSpec where
  command : String
  args : List String
  cancelation : CancelSpec
deriving DecidableEq, Inhabited

/-- onEnter/onExit actions of an environment script. -/
structure EnvActions where
  onEnter : ActionSpec
  onExit : ActionSpec
deriving DecidableEq, Inhabited

/-- Script block of an environment document. -/
structure EnvScript where
  embeddedFiles : List EmbeddedFile
  actions : EnvActions
deriving DecidableEq, Inhabited

/-- Environment document as produced by get_houdini_environments. -/
structure EnvDoc where
  name : String
  description : String
  script : EnvScript
deriving DecidableEq, Inhabited

/-- get_houdini_environments: the single Houdini daemon environment wrapping
the init-data attachment. -/
def get_houdini_environments (init_data_attachment : EmbeddedFile) : List EnvDoc :=
  [{ name := "Houdini",
     description := "Runs Houdini in the background.",
     script :=
       { embeddedFiles := [init_data_attachment],
         actions :=
           { onEnter :=
               { command := "HoudiniAdaptor",
                 args := ["daemon", "start", "--path-mapping-rules",
                          "file://\x7b\x7bSession.PathMappingRulesFile\x7d\x7d",
                          "--connection-file",
                          "\x7b\x7b Session.WorkingDirectory \x7d\x7d/connection.json",
                          "--init-data",
                          "file://\x7b\x7b Env.File.initData \x7d\x7d"],
                 cancelation := { mode := "NOTIFY_THEN_TERMINATE" } },
             onExit :=
               { command := "HoudiniAdaptor",
                 args := ["daemon", "stop", "--connection-file",
                          "\x7b\x7b Session.WorkingDirectory \x7d\x7d/connection.json"],
                 cancelation := { mode := "NOTIFY_THEN_TERMINATE" } } } } }]

/-- One dependency entry of a step document ({dependsOn: name}). -/
structure StepDependency where
  dependsOn : String
deriving DecidableEq, Inhabited

/-- One task parameter definition ({name, range, type}). -/
structure TaskParameterDef where
  name : String
  range : List Int
  type : String
deriving DecidableEq, Inhabited

/-- parameterSpace block of a step document. -/
structure ParameterSpace where
  taskParameterDefinitions : List TaskParameterDef
deriving DecidableEq, Inhabited

/-- onRun action block of a step script. -/
structure StepScriptActions where
  onRun : ActionSpec
deriving DecidableEq, Inhabited

/-- Script block of a step document. -/
structure StepScript where
  embeddedFiles : List EmbeddedFile
  actions : StepScriptActions
deriving DecidableEq, Inhabited

/-- One step document of the job template; dependencies is none when the
"dependencies" key is absent. -/
structure StepDocument where
  name : String
  parameterSpace : ParameterSpace
  stepEnvironments : List EnvDoc
  script : StepScript
  dependencies : Option (List StepDependency) := none
deriving DecidableEq, Inhabited

/-- Job template document; description and jobEnvironments are none when the
corresponding key is absent. -/
structure JobTemplate where
  specificationVersion : String
  name : String
  parameterDefinitions : List ParamDef
  steps : List StepDocument
  description : Option String := none
  jobEnvironments : Option (List String) := none
deriving DecidableEq, Inhabited

/-- Concatenated init-data file contents (init_data_contents of
_get_job_template, lines 183-187). -/
def mkInitData (ropPath ver flag : String) : String :=
  "scene_file: '\x7b\x7bParam.HipFile\x7d\x7d'\n" ++
  "render_node: '" ++ ropPath ++ "'\n" ++
  "version: " ++ ver ++ "\n" ++
  "ignore_input_nodes: " ++ flag ++ "\n"

/-- Concatenated run-data file contents (task_data_contents, lines 197-200). -/
def mkTaskData (ropPath : String) : String :=
  "render_node: " ++ ropPath ++ "\n" ++
  "frame: \x7b\x7bTask.Param.Frame\x7d\x7d\n" ++
  "ignore_input_nodes: true\n"

/-- Python dict lookup over id_steps = {n["id"]: n for n in rop_steps}: the
last step with the requested id wins, absent ids raise KeyError. -/
def dictFind (id_steps : List RenderStep) (k : String) : Option RenderStep :=
  id_steps.reverse.find? (fun m => m.id == k)

/-- Dependency list construction, line 239: one {dependsOn: name} entry per
dep id, resolved through the id_steps dict; a missing id raises KeyError. -/
def depsOf (id_steps : List RenderStep) : List String → Option (List StepDependency)
  | [] => some []
  | d :: rest =>
    match dictFind id_steps d with
    | none => none
    | some m => (depsOf id_steps rest).map (fun ds => { dependsOn := m.name } :: ds)

/-- Loop body over rop_steps in _get_job_template (lines 181-241): build one
step document; none models the KeyError raised on an unresolvable dep id. -/
def buildStep (h : Host) (id_steps : List RenderStep) (ignore_input_nodes : String)
    (n : RenderStep) : Option StepDocument :=
  let init_data_attachment : EmbeddedFile :=
    { name := "initData", filename := "init-data.yaml", type := "TEXT",
      data := mkInitData n.rop h.houdiniVersion ignore_input_nodes }
  let environments := get_houdini_environments init_data_attachment
  let frame_list := toString n.start ++ "-" ++ toString n.stop ++ ":" ++ toString n.step
  let base : StepDocument :=
    { name := n.name,
      parameterSpace :=
        { taskParameterDefinitions :=
            [{ name := "Frame", range := h.parseFrameRange frame_list, type := "INT" }] },
      stepEnvironments := environments,
      script :=
        { embeddedFiles :=
            [{ name := "runData", filename := "run-data.yaml", type := "TEXT",
               data := mkTaskData n.rop }],
          actions :=
            { onRun :=
                { command := "HoudiniAdaptor",
                  args := ["daemon", "run", "--connection-file",
                           "\x7b\x7b Session.WorkingDirectory \x7d\x7d/connection.json",
                           "--run-data",
                           "file://\x7b\x7b Task.File.runData \x7d\x7d"],
                  cancelation := { mode := "NOTIFY_THEN_TERMINATE" } } } } }
  if n.deps.isEmpty then some base
  else (depsOf id_steps n.deps).map (fun ds => { base with dependencies := some ds })

/-- Sequential construction of all step documents (the for loop over
rop_steps). -/
def buildSteps (h : Host) (id_steps : List RenderStep) (ignore_input_nodes : String) :
    List RenderStep → Option (List StepDocument)
  | [] => some []
  | n :: rest =>
    match buildStep h id_steps ignore_input_nodes n with
    | none => none
    | some s => (buildSteps h id_steps ignore_input_nodes rest).map (fun ss => s :: ss)

/-- Init-data contents embedded in a step document's environments (the data
fields of the initData attachments delivered through stepEnvironments). -/
def stepInitDatas (s : StepDocument) : List String :=
  (s.stepEnvironments.map (fun e => e.script.embeddedFiles.map (fun f => f.data))).flatten

/-- HipFile parameter definition appended to the queue-supplied definitions
(lines 167-175). -/
def hipFileParamDef (hip : String) : ParamDef :=
  { name := "HipFile", type := "PATH", objectType := some "FILE",
    dataFlow := some "IN", default := some hip }

/-- Set the default of the first parameter definition (line 259); an empty
list raises IndexError. -/
def setHeadDefault (l : List ParamDef) (v : String) : Option (List ParamDef) :=
  match l with
  | [] => none
  | d :: rest => some ({ d with default := some v } :: rest)

/-- Adaptor-wheels override extension of _get_job_template (lines 250-265):
when the toggle is on and the wheels path exists, append the override file's
parameter definitions (first default replaced by the wheels path) and its
environment block; otherwise return the template unchanged. -/
def applyAdaptorWheels (h : Host) (rop : RopNode) (job_template : JobTemplate) :
    Option JobTemplate :=
  if rop.include_adaptor_wheels then
    if h.pathExists rop.adaptor_wheels then
      match setHeadDefault h.overrideEnv.parameterDefinitions rop.adaptor_wheels with
      | none => none
      | some newDefs =>
        some { job_template with
               parameterDefinitions := job_template.parameterDefinitions ++ newDefs,
               jobEnvironments :=
                 some (job_template.jobEnvironments.getD [] ++ [h.overrideEnv.environment]) }
    else some job_template
  else some job_template

/-- _get_job_template without the adaptor-wheels extension (lines 155-249):
extract the step graph, collapse it to its first entry when separate_steps
is off (IndexError on an empty graph) while choosing the init-data
ignore_input_nodes string, and build the template document. -/
def _get_job_template_base (h : Host) (rop : RopNode) : Option JobTemplate :=
  match _get_rop_steps h rop.path with
  | none => none
  | some rop_steps0 =>
    let id_steps := rop_steps0
    let parameter_definitions :=
      rop.queue_parameter_definitions.getD [] ++ [hipFileParamDef h.hipFile]
    let sel : Option (List RenderStep × String) :=
      if rop.separate_steps then some (rop_steps0, "true")
      else
        match rop_steps0 with
        | [] => none
        | s :: _ => some ([s], "false")
    match sel with
    | none => none
    | some (rop_steps, ignore_input_nodes) =>
      match buildSteps h id_steps ignore_input_nodes rop_steps with
      | none => none
      | some steps =>
        some { specificationVersion := "jobtemplate-2023-09",
               name := rop.name,
               parameterDefinitions := parameter_definitions,
               steps := steps,
               description := if rop.description ≠ "" then some rop.description else none }

/-- _get_job_template: the base template followed by the adaptor-wheels
extension. -/
def _get_job_template (h : Host) (rop : RopNode) : Option JobTemplate :=
  match _get_job_template_base h rop with
  | none => none
  | some t => applyAdaptorWheels h rop t

/-! ## Parameter Value Compiler (_get_parameter_values) -/

/-- Parameter values document. -/
structure ParameterValues where
  parameterValues : List ParameterValue
deriving DecidableEq, Inhabited

/-- Modelled from the spec: get_queue_parameter_values_as_openjd of the
repository's queue_parameters module (not under src/) returns the
farm-queue-defined parameter values of the node as a flat list. -/
def get_queue_parameter_values_as_openjd (node : RopNode) : List ParameterValue :=
  node.queue_parameter_values

/-- _get_parameter_values: the four deadline: scheduling parameters followed
by the queue parameter values. -/
def _get_parameter_values (node : RopNode) : ParameterValues :=
  { parameterValues :=
      [{ name := "deadline:priority", value := PValue.intVal node.priority },
       { name := "deadline:targetTaskRunStatus", value := PValue.strVal node.initial_status },
       { name := "deadline:maxFailedTasksCount", value := PValue.intVal node.failed_tasks_limit },
       { name := "deadline:maxRetriesPerTask", value := PValue.intVal node.task_retry_limit }]
      ++ get_queue_parameter_values_as_openjd node }

/-! ## Job Bundle Writer (_create_job_bundle) -/

/-- Content of one written bundle file: a direct serialization of the
corresponding in-memory document (the YAML encoder is external). -/
inductive BundleDoc
  | template : JobTemplate → BundleDoc
  | paramValues : ParameterValues → BundleDoc
  | assetRefs : AssetReferences → BundleDoc
deriving DecidableEq, Inhabited

/-- Minimal filesystem: existing directories and written files. -/
structure FS where
  dirs : List String
  files : List (String × BundleDoc)
deriving DecidableEq, Inhabited

/-- Python open(dir/fname, "w") followed by a dump: fails when the directory
does not exist, otherwise truncates any previous file at that path and
writes the document. -/
def fsWrite (fs : FS) (dir fname : String) (doc : BundleDoc) : Option FS :=
  if dir ∈ fs.dirs then
    let p := dir ++ "/" ++ fname
    some { fs with files := fs.files.filter (fun e => e.1 != p) ++ [(p, doc)] }
  else none

/-- _create_job_bundle: compute template and parameter values, then write
template.yaml, parameter_values.yaml and asset_references.yaml into the
given bundle directory. -/
def _create_job_bundle (h : Host) (rop_node : RopNode) (job_bundle_dir : String)
    (asset_references : AssetReferences) (fs : FS) : Option FS :=
  match _get_job_template h rop_node with
  | none => none
  | some job_template =>
    let parameter_values := _get_parameter_values rop_node
    match fsWrite fs job_bundle_dir "template.yaml" (BundleDoc.template job_template) with
    | none => none
    | some fs1 =>
      match fsWrite fs1 job_bundle_dir "parameter_values.yaml"
          (BundleDoc.paramValues parameter_values) with
      | none => none
      | some fs2 =>
        fsWrite fs2 job_bundle_dir "asset_references.yaml"
          (BundleDoc.assetRefs asset_references)

/-! ## Concrete fixtures used by witnesses and counterexamples -/

/-- Override-environment document used by the concrete hosts. -/
def overrideEnvW : OverrideEnvironment :=
  { parameterDefinitions :=
      [{ name := "AdaptorWheels", type := "PATH", objectType := some "DIRECTORY",
         dataFlow := none, default := none }],
    environment := "AdaptorOverride" }

/-- Concrete host: two-step render plan where step 2 depends on step 1, and
the submitting node /out/sub1 is a deadline_cloud operator. -/
def hostW : Host :=
  { hipFile := "/scenes/shot.hip",
    houdiniVersion := "20.0.547",
    hscript := fun _ =>
      ("1 [ ] /out/geo1 \t( 1 10 1 )\n2 [ 1 ] /out/mantra1 \t( 1 10 1 )\n", ""),
    typeName := fun p => if p = "/out/sub1" then "deadline_cloud" else "geometry",
    typeNameWithCategory := fun _ => "Driver/geometry",
    parmEval := fun _ _ => "/renders/beauty.exr",
    fileReferences := [],
    isdir := fun _ => false,
    pathExists := fun _ => true,
    parseFrameRange := fun _ => [],
    overrideEnv := overrideEnvW }

/-- Concrete submitting node with separate steps enabled. -/
def ropSepW : RopNode :=
  { path := "/out/sub1", name := "jobA", description := "", separate_steps := true,
    include_adaptor_wheels := false, adaptor_wheels := "/wheels",
    queue_parameter_definitions := none, priority := 50, initial_status := "READY",
    failed_tasks_limit := 100, task_retry_limit := 5, queue_parameter_values := [] }

/-- Concrete submitting node with separate steps disabled. -/
def ropCollapseW : RopNode :=
  { ropSepW with separate_steps := false }

/-- Concrete submitting node with the adaptor-wheels toggle on. -/
def ropWheelsW : RopNode :=
  { ropSepW with include_adaptor_wheels := true }

/-- Step graph extracted from hostW for /out/sub1. -/
def stepsW : List RenderStep :=
  [{ id := "1", name := "/out/geo1-1", deps := [], rop := "/out/geo1",
     start := 1, stop := 10, step := 1 },
   { id := "2", name := "/out/mantra1-2", deps := ["1"], rop := "/out/mantra1",
     start := 1, stop := 10, step := 1 }]

/-- Job template compiled from hostW with separate steps on. -/
def tmplSepW : JobTemplate := (_get_job_template hostW ropSepW).getD default

/-- Job template compiled from hostW with separate steps off. -/
def tmplCollapseW : JobTemplate := (_get_job_template hostW ropCollapseW).getD default

/-- Base job template (before the wheels extension) for ropWheelsW. -/
def tmplBaseWheelsW : JobTemplate := (_get_job_template_base hostW ropWheelsW).getD default

/-- Host whose render introspection prints only a blank line. -/
def hostEmptyW : Host := { hostW with hscript := fun _ => ("\n", "") }

/-- Host whose render introspection emits a four-token frame range. -/
def hostFourTokensW : Host :=
  { hostW with hscript := fun _ => ("1 [ ] /out/geo1 \t( 1 10 2 7 )", "") }

/-- Host with a parameterless opdef: file reference and no render steps. -/
def hostRefCexW : Host :=
  { hostW with
    hscript := fun _ => ("", ""),
    fileReferences := [(none, "opdef:/Object/foo")] }

/-- Host with one reference of every filtered kind plus one real asset. -/
def hostRefW : Host :=
  { hostW with
    fileReferences :=
      [(some { nodePath := "/out/sub1", name := "output" }, "/renders/own.exr"),
       (some { nodePath := "/obj/geo1", name := "file" }, "oplib:/Sop/sphere"),
       (some { nodePath := "/tasks/top1", name := "taskgraphfile" }, "/pdg/graph.json"),
       (some { nodePath := "/obj/geo1", name := "file" }, "/assets/model.bgeo")] }

/-- Scene-scan asset references collected from hostRefW. -/
def arRefW : AssetReferences :=
  (_get_scene_asset_references hostRefW ropSepW).getD default

/-- Filesystem with the bundle directory present and no files. -/
def fsDirW : FS := { dirs := ["/bundles/b1"], files := [] }

/-- Empty filesystem: the bundle directory does not exist. -/
def fsEmptyW : FS := { dirs := [], files := [] }

/-- Asset references document handed to the bundle writer fixture. -/
def arW : AssetReferences :=
  { input_filenames := ["/scenes/shot.hip"], input_directories := [],
    output_directories := ["/renders"] }

/-! ## Helper lemmas -/

theorem applyAdaptorWheels_skeleton (h : Host) (rop : RopNode) (t t' : JobTemplate)
    (ha : applyAdaptorWheels h rop t = some t') :
    t'.steps = t.steps ∧ t'.name = t.name := by
  unfold applyAdaptorWheels at ha
  split at ha
  · split at ha
    · cases hsd : setHeadDefault h.overrideEnv.parameterDefinitions rop.adaptor_wheels with
      | none => rw [hsd] at ha; cases ha
      | some nd =>
        rw [hsd] at ha
        have hts := Option.some.inj ha
        subst hts
        exact ⟨rfl, rfl⟩
    · have hts := Option.some.inj ha
      subst hts
      exact ⟨rfl, rfl⟩
  · have hts := Option.some.inj ha
    subst hts
    exact ⟨rfl, rfl⟩

theorem dictFind_mem (ids : List RenderStep) (k : String) (m : RenderStep)
    (hf : dictFind ids k = some m) : m ∈ ids := by
  have hm := List.mem_of_find?_eq_some hf
  exact List.mem_reverse.mp hm

theorem depsOf_mem (ids : List RenderStep) (ds : List String) (r : List StepDependency)
    (hd : depsOf ids ds = some r) :
    ∀ dep ∈ r, ∃ m ∈ ids, dep.dependsOn = m.name := by
  induction ds generalizing r with
  | nil =>
    have hr := Option.some.inj hd
    subst hr
    intro dep hdep
    cases hdep
  | cons d rest ih =>
    unfold depsOf at hd
    cases hf : dictFind ids d with
    | none => rw [hf] at hd; cases hd
    | some m =>
      rw [hf] at hd
      rcases Option.map_eq_some'.mp hd with ⟨ds', hds', hcons⟩
      subst hcons
      intro dep hdep
      rcases List.mem_cons.mp hdep with hh | hmem
      · subst hh
        exact ⟨m, dictFind_mem ids d m hf, rfl⟩
      · exact ih ds' hds' dep hmem

theorem buildStep_spec (h : Host) (ids : List RenderStep) (ign : String) (n : RenderStep)
    (s : StepDocument) (hb : buildStep h ids ign n = some s) :
    s.name = n.name ∧
    s.dependencies.isSome = !n.deps.isEmpty ∧
    stepInitDatas s = [mkInitData n.rop h.houdiniVersion ign] ∧
    ∀ dep ∈ s.dependencies.getD [], ∃ m ∈ ids, dep.dependsOn = m.name := by
  unfold buildStep at hb
  split at hb
  · next hempty =>
    have hs := Option.some.inj hb
    subst hs
    refine ⟨rfl, by simp [hempty], rfl, ?_⟩
    intro dep hdep
    simp [stepInitDatas, Option.getD] at hdep
  · next hempty =>
    rcases Option.map_eq_some'.mp hb with ⟨ds, hds, hs⟩
    subst hs
    refine ⟨rfl, by simp [Bool.not_eq_true'] at hempty ⊢; simp [hempty], rfl, ?_⟩
    intro dep hdep
    exact depsOf_mem ids n.deps ds hds dep hdep

theorem buildSteps_forall (h : Host) (ids : List RenderStep) (ign : String)
    (l : List RenderStep) (r : List StepDocument)
    (hb : buildSteps h ids ign l = some r) :
    List.Forall₂ (fun n s => buildStep h ids ign n = some s) l r := by
  induction l generalizing r with
  | nil =>
    have hr := Option.some.inj hb
    subst hr
    exact List.Forall₂.nil
  | cons n rest ih =>
    unfold buildSteps at hb
    cases hs : buildStep h ids ign n with
    | none => rw [hs] at hb; cases hb
    | some s =>
      rw [hs] at hb
      rcases Option.map_eq_some'.mp hb with ⟨ss, hss, hcons⟩
      subst hcons
      exact List.Forall₂.cons hs (ih ss hss)

theorem forall₂_map_eq {α β γ : Type} (R : α → β → Prop) (f : α → γ) (g : β → γ)
    (hfg : ∀ a b, R a b → f a = g b) (l : List α) (r : List β)
    (hlr : List.Forall₂ R l r) : l.map f = r.map g := by
  induction hlr with
  | nil => rfl
  | cons hab _ ih => simp only [List.map_cons, hfg _ _ hab, ih]

theorem forall₂_countP_eq {α β : Type} (R : α → β → Prop) (p : α → Bool) (q : β → Bool)
    (hpq : ∀ a b, R a b → p a = q b) (l : List α) (r : List β)
    (hlr : List.Forall₂ R l r) : l.countP p = r.countP q := by
  induction hlr with
  | nil => rfl
  | cons hab _ ih => rw [List.countP_cons, List.countP_cons, hpq _ _ hab, ih]

theorem forall₂_mem_right {α β : Type} (R : α → β → Prop) (l : List α) (r : List β)
    (hlr : List.Forall₂ R l r) : ∀ b ∈ r, ∃ a ∈ l, R a b := by
  induction hlr with
  | nil => intro b hb; cases hb
  | cons hab htail ih =>
    intro b hb
    rcases List.mem_cons.mp hb with hh | hmem
    · subst hh
      exact ⟨_, List.mem_cons_self _ _, hab⟩
    · rcases ih b hmem with ⟨a, hal, har⟩
      exact ⟨a, List.mem_cons_of_mem _ hal, har⟩

theorem parseRopLine_rop_spec (tn : String → String) (n : String) (st : RenderStep)
    (hp : parseRopLine tn n = some (some st)) :
    ¬ (tn st.rop = "deadline" ∨ tn st.rop = "deadline_cloud") := by
  simp only [parseRopLine] at hp
  split at hp
  · split at hp
    · simp at hp
    · split at hp
      · split at hp
        · simp at hp
        · next hguard =>
          split at hp
          · next =>
            have h1 := Option.some.inj hp
            have h2 := Option.some.inj h1
            subst h2
            exact hguard
          · simp at hp
      · simp at hp
  · simp at hp

theorem parseLines_rop_spec (tn : String → String) (lines : List String)
    (steps : List RenderStep) (hp : parseLines tn lines = some steps) :
    ∀ s ∈ steps, ¬ (tn s.rop = "deadline" ∨ tn s.rop = "deadline_cloud") := by
  induction lines generalizing steps with
  | nil =>
    have hn := Option.some.inj hp
    subst hn
    intro s hs
    cases hs
  | cons n rest ih =>
    unfold parseLines at hp
    split at hp
    · exact ih steps hp
    · cases hline : parseRopLine tn n with
      | none => rw [hline] at hp; cases hp
      | some o =>
        rw [hline] at hp
        cases o with
        | none => exact ih steps hp
        | some st =>
          rcases Option.map_eq_some'.mp hp with ⟨ss, hss, hcons⟩
          subst hcons
          intro s hs
          rcases List.mem_cons.mp hs with hh | hmem
          · subst hh
            exact parseRopLine_rop_spec tn n s hline
          · exact ih ss hss s hmem

theorem get_rop_steps_rop_spec (h : Host) (ropPath : String) (steps : List RenderStep)
    (hs : _get_rop_steps h ropPath = some steps) :
    ∀ s ∈ steps, ¬ (h.typeName s.rop = "deadline" ∨ h.typeName s.rop = "deadline_cloud") := by
  simp only [_get_rop_steps] at hs
  split at hs
  · cases hs
  · exact parseLines_rop_spec h.typeName _ steps hs

theorem template_base_separate (h : Host) (rop : RopNode) (rsteps : List RenderStep)
    (t0 : JobTemplate) (hsep : rop.separate_steps = true)
    (hs : _get_rop_steps h rop.path = some rsteps)
    (hbase : _get_job_template_base h rop = some t0) :
    ∃ steps, buildSteps h rsteps "true" rsteps = some steps ∧
      t0.steps = steps ∧ t0.name = rop.name := by
  simp only [_get_job_template_base, hs, hsep, eq_self_iff_true, if_true] at hbase
  split at hbase
  · cases hbase
  · next steps hb =>
    have ht0 := Option.some.inj hbase
    subst ht0
    exact ⟨steps, hb, rfl, rfl⟩

theorem template_base_collapsed (h : Host) (rop : RopNode) (s : RenderStep)
    (rest : List RenderStep) (t0 : JobTemplate) (hsep : rop.separate_steps = false)
    (hs : _get_rop_steps h rop.path = some (s :: rest))
    (hbase : _get_job_template_base h rop = some t0) :
    ∃ sd, buildStep h (s :: rest) "false" s = some sd ∧ t0.steps = [sd] := by
  simp only [_get_job_template_base, hs, hsep, Bool.false_eq_true, if_false,
    buildSteps] at hbase
  split at hbase
  · cases hbase
  · next steps hsteps =>
    split at hsteps
    · cases hsteps
    · next sd hsd =>
      simp only [Option.map_some'] at hsteps
      have hst := Option.some.inj hsteps
      have ht0 := Option.some.inj hbase
      subst ht0
      exact ⟨sd, hsd, hst.symm⟩

theorem template_empty_collapse_none (h : Host) (rop : RopNode)
    (hsep : rop.separate_steps = false)
    (hs : _get_rop_steps h rop.path = some []) :
    _get_job_template h rop = none := by
  have hbase : _get_job_template_base h rop = none := by
    simp only [_get_job_template_base, hs, hsep, Bool.false_eq_true, if_false]
  simp only [_get_job_template, hbase]

theorem template_empty_separate (h : Host) (rop : RopNode)
    (hsep : rop.separate_steps = true)
    (hwheels : rop.include_adaptor_wheels = false)
    (hs : _get_rop_steps h rop.path = some []) :
    ∃ t, _get_job_template h rop = some t ∧ t.steps = [] := by
  refine ⟨{ specificationVersion := "jobtemplate-2023-09", name := rop.name,
            parameterDefinitions :=
              rop.queue_parameter_definitions.getD [] ++ [hipFileParamDef h.hipFile],
            steps := [],
            description := if rop.description ≠ "" then some rop.description else none },
          ?_, rfl⟩
  simp only [_get_job_template, _get_job_template_base, hs, hsep, eq_self_iff_true,
    if_true, buildSteps, applyAdaptorWheels, hwheels, Bool.false_eq_true, if_false]

theorem setAdd_mem_of_mem (s : List String) (x f : String) (hf : f ∈ s) :
    f ∈ setAdd s x := by
  unfold setAdd
  split
  · exact hf
  · exact List.mem_append_left _ hf

theorem setAdd_mem (s : List String) (x f : String) (hf : f ∈ setAdd s x) :
    f ∈ s ∨ f = x := by
  unfold setAdd at hf
  split at hf
  · exact Or.inl hf
  · rcases List.mem_append.mp hf with hs | hx
    · exact Or.inl hs
    · exact Or.inr (List.mem_singleton.mp hx)

theorem addFileRef_mem_of_mem (h : Host) (ropPath : String) (acc : List String)
    (pr : Option FileRefParm × String) (f : String) (hf : f ∈ acc) :
    f ∈ addFileRef h ropPath acc pr := by
  obtain ⟨op, v⟩ := pr
  unfold addFileRef
  cases op with
  | some p =>
    dsimp only
    split
    · exact hf
    · split
      · exact hf
      · split
        · exact hf
        · split
          · exact hf
          · exact setAdd_mem_of_mem _ _ _ hf
  | none =>
    dsimp only
    split
    · exact hf
    · exact setAdd_mem_of_mem _ _ _ hf

theorem addFileRef_cases (h : Host) (ropPath : String) (acc : List String)
    (pr : Option FileRefParm × String) (f : String)
    (hf : f ∈ addFileRef h ropPath acc pr) :
    f ∈ acc ∨ (pr.2 = f ∧ okRef h ropPath pr) := by
  obtain ⟨op, v⟩ := pr
  unfold addFileRef at hf
  cases op with
  | some p =>
    dsimp only at hf ⊢
    split at hf
    · exact Or.inl hf
    · next hown =>
      split at hf
      · exact Or.inl hf
      · next hpre =>
        split at hf
        · exact Or.inl hf
        · next hden =>
          split at hf
          · exact Or.inl hf
          · next hdir =>
            rcases setAdd_mem _ _ _ hf with ha | hfe
            · exact Or.inl ha
            · refine Or.inr ⟨hfe.symm, ?_, Or.inr ⟨p, rfl, hown, ?_, hden⟩⟩
              · simpa using hdir
              · simpa using hpre
  | none =>
    dsimp only at hf ⊢
    split at hf
    · exact Or.inl hf
    · next hdir =>
      rcases setAdd_mem _ _ _ hf with ha | hfe
      · exact Or.inl ha
      · exact Or.inr ⟨hfe.symm, by simpa using hdir, Or.inl rfl⟩

theorem addFileRef_fold_preserve (h : Host) (ropPath : String)
    (refs : List (Option FileRefParm × String)) :
    ∀ (acc : List String) (f : String), f ∈ acc →
      f ∈ refs.foldl (addFileRef h ropPath) acc := by
  induction refs with
  | nil => intro acc f hf; exact hf
  | cons pr rest ih =>
    intro acc f hf
    exact ih (addFileRef h ropPath acc pr) f (addFileRef_mem_of_mem h ropPath acc pr f hf)

theorem addFileRef_fold_sound (h : Host) (ropPath : String)
    (refs : List (Option FileRefParm × String)) :
    ∀ (acc : List String), ∀ f ∈ refs.foldl (addFileRef h ropPath) acc,
      f ∈ acc ∨ ∃ pr ∈ refs, pr.2 = f ∧ okRef h ropPath pr := by
  induction refs with
  | nil => intro acc f hf; exact Or.inl hf
  | cons pr rest ih =>
    intro acc f hf
    rcases ih (addFileRef h ropPath acc pr) f hf with hmem | ⟨pr', hpr', hrest⟩
    · rcases addFileRef_cases h ropPath acc pr f hmem with hacc | ⟨heq, hok⟩
      · exact Or.inl hacc
      · exact Or.inr ⟨pr, List.mem_cons_self _ _, heq, hok⟩
    · exact Or.inr ⟨pr', List.mem_cons_of_mem _ hpr', hrest⟩

theorem string_append_ne (s a b : String) (hab : a ≠ b) : s ++ a ≠ s ++ b := by
  intro hcontra
  apply hab
  have hd := congrArg String.data hcontra
  simp only [String.data_append] at hd
  exact String.ext (List.append_cancel_left hd)

/-! ## Claim theorems -/

/-- C6: for every scene and submitting render operator (a deadline or
deadline_cloud farm-submission node), the submitting operator's own node
path never appears as the rop value of any extracted RenderStep, because
steps resolving to those operator types are skipped. -/
theorem C6_no_self_step (h : Host) (rop : RopNode) (steps : List RenderStep)
    (htype : h.typeName rop.path = "deadline" ∨ h.typeName rop.path = "deadline_cloud")
    (hs : _get_rop_steps h rop.path = some steps) :
    ∀ s ∈ steps, s.rop ≠ rop.path := by
  intro s hsmem heq
  apply get_rop_steps_rop_spec h rop.path steps hs s hsmem
  rw [heq]
  exact htype

/-- Witness for C6: the first extracted step of the two-step fixture does
not target the submitting deadline_cloud node /out/sub1. -/
theorem C6_witness : (stepsW.getD 0 default).rop ≠ "/out/sub1" :=
  C6_no_self_step hostW ropSepW stepsW (Or.inr (by decide)) (by decide)
    (stepsW.getD 0 default) (by decide)

/-- C10: scene-scan asset collection never touches input_directories: any
successful _get_scene_asset_references result has an empty
input_directories set. -/
theorem C10_input_directories_empty (h : Host) (rop : RopNode) (ar : AssetReferences)
    (har : _get_scene_asset_references h rop = some ar) :
    ar.input_directories = [] := by
  simp only [_get_scene_asset_references] at har
  split at har
  · cases har
  · have hr := Option.some.inj har
    subst hr
    rfl

/-- Witness for C10 at the mixed-reference fixture. -/
theorem C10_witness : arRefW.input_directories = [] :=
  C10_input_directories_empty hostRefW ropSepW arRefW (by decide)

/-- C3: for every non-empty step graph, with separate_steps off the job
template contains exactly one step document and its embedded init data is
the init-data text whose ignore_input_nodes value is the string "false". -/
theorem C3_collapse_single_ignore_false (h : Host) (rop : RopNode) (s : RenderStep)
    (rest : List RenderStep) (t : JobTemplate)
    (hsep : rop.separate_steps = false)
    (hs : _get_rop_steps h rop.path = some (s :: rest))
    (ht : _get_job_template h rop = some t) :
    t.steps.length = 1 ∧
    t.steps.map stepInitDatas = [[mkInitData s.rop h.houdiniVersion "false"]] := by
  cases hbase : _get_job_template_base h rop with
  | none =>
    simp only [_get_job_template, hbase] at ht
    exact Option.noConfusion ht
  | some t0 =>
    simp only [_get_job_template, hbase] at ht
    obtain ⟨hsteps, -⟩ := applyAdaptorWheels_skeleton h rop t0 t ht
    obtain ⟨sd, hsd, ht0s⟩ := template_base_collapsed h rop s rest t0 hsep hs hbase
    rw [hsteps, ht0s]
    refine ⟨rfl, ?_⟩
    rw [List.map_singleton, (buildStep_spec h (s :: rest) "false" s sd hsd).2.2.1]

/-- Witness for C3 at the two-step fixture with separate steps off. -/
theorem C3_witness :
    tmplCollapseW.steps.length = 1 ∧
    tmplCollapseW.steps.map stepInitDatas =
      [[mkInitData "/out/geo1" "20.0.547" "false"]] :=
  C3_collapse_single_ignore_false hostW ropCollapseW
    { id := "1", name := "/out/geo1-1", deps := [], rop := "/out/geo1",
      start := 1, stop := 10, step := 1 }
    [{ id := "2", name := "/out/mantra1-2", deps := ["1"], rop := "/out/mantra1",
       start := 1, stop := 10, step := 1 }]
    tmplCollapseW rfl (by decide) (by decide)

/-- C1: with separate_steps on, a successfully compiled job template has one
step document per extracted RenderStep, carries a dependencies field on
exactly those whose RenderStep has non-empty deps, and every dependsOn
entry names some sibling step document. -/
theorem C1_separate_steps_shape (h : Host) (rop : RopNode) (rsteps : List RenderStep)
    (t : JobTemplate) (hsep : rop.separate_steps = true)
    (hs : _get_rop_steps h rop.path = some rsteps)
    (ht : _get_job_template h rop = some t) :
    t.steps.length = rsteps.length ∧
    t.steps.countP (fun s => s.dependencies.isSome) =
      rsteps.countP (fun n => !n.deps.isEmpty) ∧
    ∀ s ∈ t.steps, ∀ dep ∈ s.dependencies.getD [],
      ∃ s' ∈ t.steps, s'.name = dep.dependsOn := by
  cases hbase : _get_job_template_base h rop with
  | none =>
    simp only [_get_job_template, hbase] at ht
    exact Option.noConfusion ht
  | some t0 =>
    simp only [_get_job_template, hbase] at ht
    obtain ⟨hsteps, -⟩ := applyAdaptorWheels_skeleton h rop t0 t ht
    obtain ⟨steps, hb, ht0s, -⟩ := template_base_separate h rop rsteps t0 hsep hs hbase
    have ff := buildSteps_forall h rsteps "true" rsteps steps hb
    rw [hsteps, ht0s]
    refine ⟨(List.Forall₂.length_eq ff).symm, ?_, ?_⟩
    · exact (forall₂_countP_eq _ _ _
        (fun a b hab => ((buildStep_spec h rsteps "true" a b hab).2.1).symm)
        rsteps steps ff).symm
    · intro s hsmem dep hdep
      obtain ⟨nstep, hnmem, hnb⟩ := forall₂_mem_right _ rsteps steps ff s hsmem
      obtain ⟨m, hm, hdepname⟩ :=
        (buildStep_spec h rsteps "true" nstep s hnb).2.2.2 dep hdep
      have hnames : rsteps.map RenderStep.name = steps.map StepDocument.name :=
        forall₂_map_eq _ _ _
          (fun a b hab => ((buildStep_spec h rsteps "true" a b hab).1).symm)
          rsteps steps ff
      have hmem : m.name ∈ steps.map StepDocument.name := by
        rw [← hnames]
        exact List.mem_map_of_mem _ hm
      rcases List.mem_map.mp hmem with ⟨s', hs'mem, hs'name⟩
      exact ⟨s', hs'mem, hs'name.trans hdepname.symm⟩

/-- Witness for C1 at the two-step fixture with separate steps on. -/
theorem C1_witness :
    tmplSepW.steps.length = stepsW.length ∧
    tmplSepW.steps.countP (fun s => s.dependencies.isSome) =
      stepsW.countP (fun n => !n.deps.isEmpty) ∧
    ∀ s ∈ tmplSepW.steps, ∀ dep ∈ s.dependencies.getD [],
      ∃ s' ∈ tmplSepW.steps, s'.name = dep.dependsOn :=
  C1_separate_steps_shape hostW ropSepW stepsW tmplSepW rfl (by decide) (by decide)

/-- C2 (amended): with separate_steps off the compiler collapses the plan to
a single step built from the first entry of the step graph and writes
ignore_input_nodes "false" into the generated init data; with it on it
emits one step document per RenderStep and writes ignore_input_nodes
"true". (The original claim swaps the two flag values.) -/
theorem C2_mode_effects (h : Host) (rop : RopNode) (rsteps : List RenderStep)
    (t : JobTemplate)
    (hs : _get_rop_steps h rop.path = some rsteps)
    (ht : _get_job_template h rop = some t) :
    (rop.separate_steps = false →
      ∃ s rest, rsteps = s :: rest ∧
        t.steps.map StepDocument.name = [s.name] ∧
        t.steps.map stepInitDatas = [[mkInitData s.rop h.houdiniVersion "false"]]) ∧
    (rop.separate_steps = true →
      t.steps.map StepDocument.name = rsteps.map RenderStep.name ∧
      t.steps.map stepInitDatas =
        rsteps.map (fun n => [mkInitData n.rop h.houdiniVersion "true"])) := by
  cases hbase : _get_job_template_base h rop with
  | none =>
    simp only [_get_job_template, hbase] at ht
    exact Option.noConfusion ht
  | some t0 =>
    simp only [_get_job_template, hbase] at ht
    obtain ⟨hsteps, -⟩ := applyAdaptorWheels_skeleton h rop t0 t ht
    constructor
    · intro hsep
      cases rsteps with
      | nil =>
        have hnone := template_empty_collapse_none h rop hsep hs
        have hsome : _get_job_template h rop = some t := by
          simp only [_get_job_template, hbase]
          exact ht
        rw [hnone] at hsome
        exact Option.noConfusion hsome
      | cons s rest =>
        obtain ⟨sd, hsd, ht0s⟩ := template_base_collapsed h rop s rest t0 hsep hs hbase
        refine ⟨s, rest, rfl, ?_, ?_⟩
        · rw [hsteps, ht0s, List.map_singleton,
            (buildStep_spec h (s :: rest) "false" s sd hsd).1]
        · rw [hsteps, ht0s, List.map_singleton,
            (buildStep_spec h (s :: rest) "false" s sd hsd).2.2.1]
    · intro hsep
      obtain ⟨steps, hb, ht0s, -⟩ := template_base_separate h rop rsteps t0 hsep hs hbase
      have ff := buildSteps_forall h rsteps "true" rsteps steps hb
      rw [hsteps, ht0s]
      constructor
      · exact (forall₂_map_eq _ _ _
          (fun a b hab => ((buildStep_spec h rsteps "true" a b hab).1).symm)
          rsteps steps ff).symm
      · exact (forall₂_map_eq _ _ _
          (fun a b hab => ((buildStep_spec h rsteps "true" a b hab).2.2.1).symm)
          rsteps steps ff).symm

/-- Witness for the amended C2: the collapse branch at the two-step fixture. -/
theorem C2_witness :
    ∃ s rest, stepsW = s :: rest ∧
      tmplCollapseW.steps.map StepDocument.name = [s.name] ∧
      tmplCollapseW.steps.map stepInitDatas =
        [[mkInitData s.rop hostW.houdiniVersion "false"]] :=
  (C2_mode_effects hostW ropCollapseW stepsW tmplCollapseW (by decide) (by decide)).1 rfl

/-- Counterexample refuting C2 as stated: with separate_steps off the init
data embeds ignore_input_nodes "false" (not "true"), and the two embedded
texts differ. -/
theorem C2_counterexample :
    ropCollapseW.separate_steps = false ∧
    (_get_job_template hostW ropCollapseW).map (fun t => t.steps.map stepInitDatas) =
      some [[mkInitData "/out/geo1" "20.0.547" "false"]] ∧
    mkInitData "/out/geo1" "20.0.547" "false" ≠ mkInitData "/out/geo1" "20.0.547" "true" :=
  ⟨rfl, by decide, by decide⟩

/-- C4 (amended): over the token list parsed from a frame-range expression,
one integer token f yields the triple (f, f, 1) and three tokens a b c
yield (a, b, c); zero or two tokens make the step construction raise a
low-level error (no triple), while four or more tokens silently yield the
triple of the first three, ignoring the rest, instead of raising a
malformed-input error. -/
theorem C4_frange_token_counts (fp : String) (ints : List Int)
    (hp : parseFrangeInts fp = some ints) :
    (∀ f, ints = [f] → frangeTriple fp = some (f, f, 1)) ∧
    (∀ a b c, ints = [a, b, c] → frangeTriple fp = some (a, b, c)) ∧
    (ints = [] → frangeTriple fp = none) ∧
    (∀ a b, ints = [a, b] → frangeTriple fp = none) ∧
    (∀ a b c d tail, ints = a :: b :: c :: d :: tail → frangeTriple fp = some (a, b, c)) := by
  unfold frangeTriple
  rw [hp]
  refine ⟨?_, ?_, ?_, ?_, ?_⟩
  · intro f hints
    subst hints
    rfl
  · intro a b c hints
    subst hints
    rfl
  · intro hints
    subst hints
    rfl
  · intro a b hints
    subst hints
    rfl
  · intro a b c d tail hints
    subst hints
    rfl

/-- Witness for the amended C4: a four-token range parses and yields the
triple of its first three tokens. -/
theorem C4_witness :
    parseFrangeInts "( 1 10 2 7 )" = some [1, 10, 2, 7] ∧
    frangeTriple "( 1 10 2 7 )" = some (1, 10, 2) :=
  ⟨by decide,
   (C4_frange_token_counts "( 1 10 2 7 )" [1, 10, 2, 7] (by decide)).2.2.2.2
     1 10 2 7 [] rfl⟩

/-- Counterexample refuting C4 as stated: on a line whose frame range has
four integer tokens the extractor raises nothing and emits a step built
from the first three tokens. -/
theorem C4_counterexample :
    _get_rop_steps hostFourTokensW "/out/sub1" =
      some [{ id := "1", name := "/out/geo1-1", deps := [], rop := "/out/geo1",
              start := 1, stop := 10, step := 2 }] := by decide

/-- C5 (amended): an introspection output of only blank lines yields an
empty step graph; the template compiler then has no dedicated "no steps to
submit" failure: with separate_steps off it fails with a low-level
first-element access (none), and with it on (wheels extension off) it
produces a job template whose steps list is empty. -/
theorem C5_empty_output (h : Host) (rop : RopNode) (outStr : String)
    (hout : h.hscript ("render -p -c -F " ++ rop.path) = (outStr, ""))
    (hblank : (pysplit outStr '\n').all (fun l => (pystrip l).isEmpty) = true) :
    _get_rop_steps h rop.path = some [] ∧
    (rop.separate_steps = false → _get_job_template h rop = none) ∧
    (rop.separate_steps = true → rop.include_adaptor_wheels = false →
      ∃ t, _get_job_template h rop = some t ∧ t.steps = []) := by
  have hsteps : _get_rop_steps h rop.path = some [] := by
    have hlines : ∀ lines : List String,
        lines.all (fun l => (pystrip l).isEmpty) = true →
        parseLines h.typeName lines = some [] := by
      intro lines
      induction lines with
      | nil => intro _; rfl
      | cons n rest ih =>
        intro hall
        rw [List.all_cons, Bool.and_eq_true] at hall
        simp only [parseLines, hall.1, eq_self_iff_true, if_true]
        exact ih hall.2
    simp only [_get_rop_steps, hout]
    rw [if_neg (by simp)]
    exact hlines _ hblank
  refine ⟨hsteps, ?_, ?_⟩
  · intro hsep
    exact template_empty_collapse_none h rop hsep hsteps
  · intro hsep hwheels
    exact template_empty_separate h rop hsep hwheels hsteps

/-- Witness for the amended C5 at the blank-output fixture with separate
steps on. -/
theorem C5_witness :
    _get_rop_steps hostEmptyW "/out/sub1" = some [] ∧
    (ropSepW.separate_steps = false → _get_job_template hostEmptyW ropSepW = none) ∧
    (ropSepW.separate_steps = true → ropSepW.include_adaptor_wheels = false →
      ∃ t, _get_job_template hostEmptyW ropSepW = some t ∧ t.steps = []) :=
  C5_empty_output hostEmptyW ropSepW "\n" rfl (by decide)

/-- Counterexample refuting C5 as stated: on empty introspection output with
separate_steps on, the submission does not fail; a job template (with zero
steps) is produced. -/
theorem C5_counterexample :
    (_get_job_template hostEmptyW ropSepW).isSome = true ∧
    (_get_job_template hostEmptyW ropSepW).map (fun t => t.steps) = some [] :=
  ⟨by decide, by decide⟩

/-- C7 (amended): scene-scan asset references always contain the open scene
file; every other input filename comes from a scene file reference that is
not a directory and, when it has an owning parameter, that parameter is not
on the submitting node, its value does not start with an ignored
virtual-scheme prefix, and its name is not denylisted. References without
an owning parameter bypass the owner, prefix and denylist filters, so the
original claim's prefix guarantee fails for them. -/
theorem C7_scene_scan_inputs (h : Host) (rop : RopNode) (ar : AssetReferences)
    (har : _get_scene_asset_references h rop = some ar) :
    h.hipFile ∈ ar.input_filenames ∧
    ∀ f ∈ ar.input_filenames, f = h.hipFile ∨
      ∃ pr ∈ h.fileReferences, pr.2 = f ∧ okRef h rop.path pr := by
  simp only [_get_scene_asset_references] at har
  split at har
  · cases har
  · have hr := Option.some.inj har
    subst hr
    constructor
    · apply addFileRef_fold_preserve
      simp [setAdd]
    · intro f hf
      rcases addFileRef_fold_sound h rop.path h.fileReferences _ f hf with hacc | hex
      · left
        rcases setAdd_mem _ _ _ hacc with hnil | hfe
        · cases hnil
        · exact hfe
      · right
        exact hex

/-- Witness for the amended C7 at the mixed-reference fixture. -/
theorem C7_witness :
    hostRefW.hipFile ∈ arRefW.input_filenames ∧
    ∀ f ∈ arRefW.input_filenames, f = hostRefW.hipFile ∨
      ∃ pr ∈ hostRefW.fileReferences, pr.2 = f ∧ okRef hostRefW ropSepW.path pr :=
  C7_scene_scan_inputs hostRefW ropSepW arRefW (by decide)

/-- Counterexample refuting C7 as stated: a file reference with no owning
parameter whose value starts with the ignored prefix opdef: is collected
into the scene-scan input filenames. -/
theorem C7_counterexample :
    (_get_scene_asset_references hostRefCexW ropSepW).map
        (fun ar => ar.input_filenames) =
      some ["/scenes/shot.hip", "opdef:/Object/foo"] ∧
    startsWithAny "opdef:/Object/foo" IGNORE_REF_VALUES = true :=
  ⟨by decide, by decide⟩

/-- C8: with the include-adaptor-wheels toggle on and an existing wheels
path, the compiled job template extends the base template's parameter
definitions with the override environment's definitions, the first of which
receives the wheels path as its default, and appends the override
environment block to jobEnvironments; with a non-existent wheels path the
template is exactly the base template and no error occurs. -/
theorem C8_adaptor_wheels (h : Host) (rop : RopNode) (base : JobTemplate)
    (hbase : _get_job_template_base h rop = some base) :
    (rop.include_adaptor_wheels = true → h.pathExists rop.adaptor_wheels = true →
      ∀ d ds, h.overrideEnv.parameterDefinitions = d :: ds →
        _get_job_template h rop =
          some { base with
                 parameterDefinitions := base.parameterDefinitions ++
                   ({ d with default := some rop.adaptor_wheels } :: ds),
                 jobEnvironments :=
                   some (base.jobEnvironments.getD [] ++ [h.overrideEnv.environment]) }) ∧
    (h.pathExists rop.adaptor_wheels = false → _get_job_template h rop = some base) := by
  constructor
  · intro hinc hex d ds hdefs
    simp only [_get_job_template, hbase, applyAdaptorWheels, hinc, hex, hdefs,
      setHeadDefault, eq_self_iff_true, if_true]
  · intro hex
    simp only [_get_job_template, hbase, applyAdaptorWheels, hex]
    split
    · rw [if_neg (by simp)]
    · rfl

/-- Witness for C8: wheels toggle on and the (everywhere-existing) path
/wheels at the two-step fixture. -/
theorem C8_witness :
    _get_job_template hostW ropWheelsW =
      some { tmplBaseWheelsW with
             parameterDefinitions := tmplBaseWheelsW.parameterDefinitions ++
               ({ name := "AdaptorWheels", type := "PATH", objectType := some "DIRECTORY",
                  dataFlow := none, default := some "/wheels" } :: []),
             jobEnvironments :=
               some (tmplBaseWheelsW.jobEnvironments.getD [] ++ ["AdaptorOverride"]) } :=
  (C8_adaptor_wheels hostW ropWheelsW tmplBaseWheelsW (by decide)).1 rfl rfl
    { name := "AdaptorWheels", type := "PATH", objectType := some "DIRECTORY",
      dataFlow := none, default := none } [] rfl

/-- C9 (amended): given an existing destination directory (created
beforehand by the external job-history helper) and a successfully compiled
template, the bundle writer writes exactly the three files template.yaml,
parameter_values.yaml and asset_references.yaml into it; it does not create
the directory itself, and with the directory absent the write fails. -/
theorem C9_bundle_files (h : Host) (rop : RopNode) (dir : String) (ar : AssetReferences)
    (fs : FS) (t : JobTemplate)
    (ht : _get_job_template h rop = some t)
    (hdir : dir ∈ fs.dirs) (hfresh : fs.files = []) :
    _create_job_bundle h rop dir ar fs =
      some { dirs := fs.dirs,
             files := [(dir ++ "/" ++ "template.yaml", BundleDoc.template t),
                       (dir ++ "/" ++ "parameter_values.yaml",
                         BundleDoc.paramValues (_get_parameter_values rop)),
                       (dir ++ "/" ++ "asset_references.yaml", BundleDoc.assetRefs ar)] } := by
  obtain ⟨dirs, files⟩ := fs
  dsimp only at hfresh hdir ⊢
  subst hfresh
  have hb1 : ((dir ++ "/" ++ "template.yaml") != (dir ++ "/" ++ "parameter_values.yaml")) = true :=
    bne_iff_ne.mpr (string_append_ne (dir ++ "/") _ _ (by decide))
  have hb2 : ((dir ++ "/" ++ "template.yaml") != (dir ++ "/" ++ "asset_references.yaml")) = true :=
    bne_iff_ne.mpr (string_append_ne (dir ++ "/") _ _ (by decide))
  have hb3 : ((dir ++ "/" ++ "parameter_values.yaml") != (dir ++ "/" ++ "asset_references.yaml")) = true :=
    bne_iff_ne.mpr (string_append_ne (dir ++ "/") _ _ (by decide))
  simp only [_create_job_bundle, ht, fsWrite, hdir, if_true, List.filter_nil,
    List.nil_append, List.filter, hb1, hb2, hb3, List.cons_append]

/-- Witness for the amended C9 at the existing-directory fixture. -/
theorem C9_witness :
    _create_job_bundle hostW ropSepW "/bundles/b1" arW fsDirW =
      some { dirs := fsDirW.dirs,
             files := [("/bundles/b1" ++ "/" ++ "template.yaml", BundleDoc.template tmplSepW),
                       ("/bundles/b1" ++ "/" ++ "parameter_values.yaml",
                         BundleDoc.paramValues (_get_parameter_values ropSepW)),
                       ("/bundles/b1" ++ "/" ++ "asset_references.yaml",
                         BundleDoc.assetRefs arW)] } :=
  C9_bundle_files hostW ropSepW "/bundles/b1" arW fsDirW tmplSepW (by decide)
    (by decide) rfl

/-- Counterexample refuting C9 as stated: with the destination directory
absent the writer creates nothing and fails instead of creating the
directory and writing the three files. -/
theorem C9_counterexample :
    _create_job_bundle hostW ropSepW "/bundles/b1" arW fsEmptyW = none := by decide
